import Mathlib

/-!
Verification of the sales-lead analyzer core (src/线索管理工具.py and the
Preprocessor of src/sales_analyzer.py) against its specification.

Shallow embedding conventions
=============================
A pandas cell is modelled by `Val`:
  * `Val.str s`  — a string cell; for date-typed positions, `str` is reserved
    for strings that `pd.to_datetime` FAILS to parse (every parseable date
    string is modelled as `Val.date t` with its timestamp);
  * `Val.int n`  — a numeric cell (the tables of this program hold integral
    counts and epoch values; fractional floats do not occur in the modelled
    inputs);
  * `Val.date t` — a cell that is, or parses to, a timestamp; `t` is in
    seconds on an arbitrary epoch, matching the second resolution of
    `datetime.now()` arithmetic; one day is 86400 seconds;
  * `Val.na`     — a float NaN (pandas' missing value for CSV input).
`datetime.now()` is passed in explicitly as `now : Int` (seconds).
A DataFrame row is a `Row`: the columns read via `row.get` are `Option Val`
(`none` = the column is missing from the table), while 学员姓名 and 客户分级
are plain `Val` because `check_unnamed_ratio` / `check_grade_distribution`
index those columns directly (`df[...]`), which presupposes their presence.
Fallible Python code (an uncaught exception) is modelled with `Except Unit`.
The float expression `(count / total) * 100 > 30` is rendered in exact
integer arithmetic (`100 * count > 30 * total`); at every input the claims
mention, the float computation is exact, so the two agree there.
-/

namespace SalesLeads

/-- A pandas cell value (see the conventions above). -/
inductive Val where
  | str (s : String)
  | int (n : Int)
  | date (t : Int)
  | na
deriving DecidableEq

/-- Model of `pd.isna` on a scalar cell: true exactly for the missing value. -/
def pdIsna : Val → Bool
  | .na => true
  | _ => false

/-- Model of `pd.isna(row.get(col))`: `row.get` without a default yields Python `None`
when the column is missing, and `pd.isna(None)` is true. -/
def pdIsnaOpt : Option Val → Bool
  | none => true
  | some v => pdIsna v

/-- Python truthiness of a cell (`bool(x)`): the empty string and 0 are
falsy; every other string, every timestamp, and NaN are truthy. -/
def truthy : Val → Bool
  | .str s => s != ""
  | .int n => n != 0
  | .date _ => true
  | .na => true

/-- Python `str(x)` on a cell. `str(nan) = "nan"`. A timestamp's text is its
date rendering, which is never one of the channel/grade table keys; any
rendering with that property is faithful for this program, and we tag it. -/
def py_str : Val → String
  | .str s => s
  | .int n => toString n
  | .date t => "Timestamp(" ++ toString t ++ ")"
  | .na => "nan"

/-- Digit run of a decimal numeral: `none` as soon as a non-digit appears. -/
def py_int_digits : List Char → Nat → Option Nat
  | [], acc => some acc
  | c :: cs, acc =>
    if c.isDigit then py_int_digits cs (10 * acc + (c.toNat - 48)) else none

/-- Python `int(s)` on a string: an optional sign followed by decimal
digits parses, anything else raises (`none`). (Python additionally strips
surrounding whitespace and allows `_` separators; such cells are outside
the modelled inputs.) -/
def py_int_of_string (s : String) : Option Int :=
  match s.data with
  | [] => none
  | '-' :: c :: cs =>
    if c.isDigit then (py_int_digits (c :: cs) 0).map (fun n => -(n : Int)) else none
  | '+' :: c :: cs =>
    if c.isDigit then (py_int_digits (c :: cs) 0).map (fun n => (n : Int)) else none
  | c :: cs =>
    if c.isDigit then (py_int_digits (c :: cs) 0).map (fun n => (n : Int)) else none

/-- Python `int(x)`: succeeds on integers and integer-numeral strings,
raises (`none`) on other strings and on timestamps. (`int(nan)` also raises,
but every call site guards with `pd.isna` first.) -/
def py_int : Val → Option Int
  | .int n => some n
  | .str s => py_int_of_string s
  | .date _ => none
  | .na => none

/-- Python `x == 0` on a cell: only a numeric 0 compares equal
(`nan == 0` and `"0" == 0` are both false). -/
def py_eq_zero : Val → Bool
  | .int n => n == 0
  | _ => false

/-- Python `x > 0` on a cell: defined for numbers, false for NaN
(NaN comparisons are false), a `TypeError` for strings and timestamps. -/
def py_gt_zero : Val → Except Unit Bool
  | .int n => .ok (decide (0 < n))
  | .na => .ok false
  | .str _ => .error ()
  | .date _ => .error ()

/-- Model of `pd.to_datetime(x)` as used under `try:` in the alert rules: a timestamp
passes through; a bare number is read as an epoch offset in nanoseconds; an
(unparseable, see `Val`) string raises; NaN would give NaT, which compares
false against every date, so `none` (= no alert) is faithful there too. -/
def to_datetime : Val → Option Int
  | .date t => some t
  | .int n => some (Int.fdiv n 1000000000)
  | .str _ => none
  | .na => none

/-- One lead record: the row fields the core reads.
Column names: sid=学员id, name=学员姓名, source=学员来源, grade=客户分级,
followup=回访次数, firstConsult=首咨时间, lastFollowup=最后回访时间,
enrollTime=报名时间, sales=所属销售. -/
structure Row where
  sid : Option Val
  name : Val
  source : Option Val
  grade : Val
  followup : Option Val
  firstConsult : Option Val
  lastFollowup : Option Val
  enrollTime : Option Val
  sales : Option Val
deriving DecidableEq

/-! ## LeadScoringSystem -/

/-- Source `self.channel_scores.get(channel, 20)`: the dict of
`LeadScoringSystem.__init__` followed by lookup with default 20. -/
def channel_scores (c : String) : Int :=
  if c = "抖音短视频平台" then 35
  else if c = "直播平台" then 30
  else if c = "创客网络销售" then 25
  else 20

/-- Source `self.grade_scores.get(grade, 5)`: the dict (A..E and 其他) with
default 5. -/
def grade_scores (g : String) : Int :=
  if g = "A" then 30
  else if g = "B" then 25
  else if g = "C" then 20
  else if g = "D" then 15
  else if g = "E" then 10
  else if g = "其他" then 5
  else 5

/-- Source `self.followup_scores.get(n, 0)`: the dict on 0..10 with default 0. -/
def followup_scores (n : Int) : Int :=
  if n = 0 then 0
  else if n = 1 then 15
  else if n = 2 then 15
  else if n = 3 then 20
  else if n = 4 then 20
  else if n = 5 then 20
  else if n = 6 then 15
  else if n = 7 then 15
  else if n = 8 then 10
  else if n = 9 then 10
  else if n = 10 then 5
  else 0

/-- Source `LeadScoringSystem.calculate_time_decay`. `days_diff` is
`(datetime.now() - consult_date).days`, i.e. the floor of the elapsed
seconds over 86400 (`timedelta.days` floors). The `except:` arm (string
that fails to parse, or a non-date non-string value making the subtraction
raise) returns 0, as does the `pd.isna` guard. -/
def calculate_time_decay (now : Int) (first_consult_date : Val) : Int :=
  if pdIsna first_consult_date then 0
  else
    match first_consult_date with
    | .date t =>
      if Int.fdiv (now - t) 86400 = 0 then 10
      else if Int.fdiv (now - t) 86400 ≤ 3 then 8
      else if Int.fdiv (now - t) 86400 ≤ 7 then 5
      else 0
    | _ => 0

/-- Source `LeadScoringSystem.calculate_lead_score`. The only uncaught exception
path is `int(followup)` on a value that is neither a number nor an integer
numeral string (modelled by `py_int = none`); the channel/grade/decay parts
are total, so hoisting the `int` conversion's error to the `match` preserves
the source's semantics. -/
def calculate_lead_score (now : Int) (row : Row) : Except Unit Int :=
  let s1 := channel_scores (py_str (row.source.getD (.str "")))
  let s2 := grade_scores (py_str row.grade)
  let followup0 := row.followup.getD (.int 0)
  let followup1 := if pdIsna followup0 then Val.int 0 else followup0
  match py_int followup1 with
  | none => .error ()
  | some f =>
    let s3 := followup_scores (min f 10)
    let s4 := calculate_time_decay now (row.firstConsult.getD (.str ""))
    .ok (min (s1 + s2 + s3 + s4) 100)

/-- Source `LeadScoringSystem.get_priority_level`. -/
def get_priority_level (score : Int) : String :=
  if score ≥ 90 then "紧急跟进"
  else if score ≥ 70 then "优先跟进"
  else if score ≥ 50 then "常规跟进"
  else "低优先级"

/-! ## AlertSystem

An alert dict is modelled as its key/value pairs in insertion order; plain
string payloads are wrapped in `Val.str`. Each per-record rule appends its
alerts in the table's row order, which `List.filterMap` / the recursion
below preserve. -/

/-- One alert record (a Python dict with string keys, listed in insertion
order). -/
abbrev Alert := List (String × Val)

/-- Source `AlertSystem.check_high_value_no_followup`: one red alert per row with
grade in `['A', 'B', 'C']` whose follow-up count is NA/missing or equals 0. -/
def check_high_value_no_followup (rows : List Row) : List Alert :=
  rows.filterMap (fun row =>
    if py_str row.grade ∈ (["A", "B", "C"] : List String) ∧
        (pdIsnaOpt row.followup = true ∨
          py_eq_zero (row.followup.getD (.int 0)) = true) then
      some [("类型", Val.str "高价值未回访"),
            ("级别", Val.str "红色预警"),
            ("学员ID", row.sid.getD (.str "")),
            ("学员姓名", row.name),
            ("客户分级", row.grade),
            ("首咨时间", row.firstConsult.getD (.str "")),
            ("所属销售", row.sales.getD (.str "")),
            ("处理建议", Val.str "立即安排首次回访")]
    else none)

/-- Source `AlertSystem.check_cold_leads`. The comparison `followup_count > 0`
sits outside the `try:` block, so a non-numeric follow-up cell propagates a
`TypeError` out of the rule (`.error`); the date parse and the comparison
against `now - 3 days` are inside the `try:` and fall through silently. -/
def check_cold_leads (now : Int) : List Row → Except Unit (List Alert)
  | [] => .ok []
  | row :: rest =>
    let last_followup := row.lastFollowup.getD (.str "")
    let followup_count := row.followup.getD (.int 0)
    if pdIsna followup_count then check_cold_leads now rest
    else
      match py_gt_zero followup_count with
      | .error e => .error e
      | .ok gt =>
        if gt = true ∧ pdIsna last_followup = false then
          match to_datetime last_followup with
          | some t =>
            if t < now - 3 * 86400 then
              (check_cold_leads now rest).map (fun tail =>
                [("类型", Val.str "热线索冷却"),
                 ("级别", Val.str "红色预警"),
                 ("学员ID", row.sid.getD (.str "")),
                 ("学员姓名", row.name),
                 ("回访次数", followup_count),
                 ("最后回访时间", last_followup),
                 ("所属销售", row.sales.getD (.str "")),
                 ("处理建议", Val.str "立即重新激活跟进")] :: tail)
            else check_cold_leads now rest
          | none => check_cold_leads now rest
        else check_cold_leads now rest

/-- Rendering `f"{ratio:.1f}%"` for the exact ratio `(num / den) * 100`: one decimal,
round half to even, as `float.__format__` does (exact at all the inputs the
claims exercise). -/
def format_pct1 (num den : Nat) : String :=
  let n := 1000 * num
  let q := n / den
  let r := n % den
  let tenths :=
    if 2 * r > den then q + 1
    else if 2 * r < den then q
    else if q % 2 = 0 then q else q + 1
  toString (tenths / 10) ++ "." ++ toString (tenths % 10) ++ "%"

/-- Source `AlertSystem.check_unnamed_ratio` (源: 检查未命名客户比例): a single
table-level yellow alert when the share of rows named 未命名 strictly
exceeds 30% of a non-empty table. `(unnamed / total) * 100 > 30` is the
exact form `100 * unnamed > 30 * total`. -/
def check_unnamed (rows : List Row) : List Alert :=
  let total := rows.length
  let unnamed := (rows.filter (fun r => decide (r.name = Val.str "未命名"))).length
  if 0 < total ∧ 100 * unnamed > 30 * total then
    [[("类型", Val.str "命名异常"),
      ("级别", Val.str "黄色预警"),
      ("未命名比例", Val.str (format_pct1 unnamed total)),
      ("影响分析", Val.str "影响后续精准跟进和客户体验"),
      ("处理建议", Val.str "要求销售在首次沟通时获取真实姓名")]]
  else []

/-- Source `AlertSystem.check_grade_distribution`: a single table-level orange
alert when the share of rows graded 其他 strictly exceeds 30% of a
non-empty table. -/
def check_grade_distribution (rows : List Row) : List Alert :=
  let total := rows.length
  let other := (rows.filter (fun r => decide (r.grade = Val.str "其他"))).length
  if 0 < total ∧ 100 * other > 30 * total then
    [[("类型", Val.str "分级异常"),
      ("级别", Val.str "橙色预警"),
      ("其他分级占比", Val.str (format_pct1 other total)),
      ("处理建议", Val.str "重新评估客户分级标准，加强销售培训")]]
  else []

/-- Source `AlertSystem.check_zombie_leads`. `last_update` is the Python
expression `row.get('最后回访时间', '') or row.get('首咨时间', '')`: the
follow-up value itself when truthy (note NaN is truthy), the consultation
value otherwise. The date parse and both conditions are inside `try:`. -/
def check_zombie_leads (now : Int) (rows : List Row) : List Alert :=
  rows.filterMap (fun row =>
    let last_update :=
      if truthy (row.lastFollowup.getD (.str "")) then row.lastFollowup.getD (.str "")
      else row.firstConsult.getD (.str "")
    if pdIsna last_update then none
    else
      match to_datetime last_update with
      | none => none
      | some t =>
        if t < now - 7 * 86400 ∧ pdIsnaOpt row.enrollTime = true then
          some [("类型", Val.str "僵尸线索"),
                ("级别", Val.str "黄色预警"),
                ("学员ID", row.sid.getD (.str "")),
                ("学员姓名", row.name),
                ("最后更新", last_update),
                ("所属销售", row.sales.getD (.str "")),
                ("处理建议", Val.str "评估是否放弃或重新激活")]
        else none)

/-- The three alert buckets of `AlertSystem.__init__`. -/
structure AlertSystem where
  red_alerts : List Alert
  orange_alerts : List Alert
  yellow_alerts : List Alert
deriving DecidableEq

/-- Source `AlertSystem.generate_all_alerts`: the three buckets are `.clear()`ed
and then each rule appends, so the result is built from the table alone —
the incoming `sys` is never read. Red collects rule 1 then rule 2, yellow
rule 3 then rule 5, orange rule 4, in the source's execution order. A
`TypeError` escaping `check_cold_leads` is the one raising path. -/
def generate_all_alerts (sys : AlertSystem) (now : Int) (rows : List Row) :
    Except Unit AlertSystem :=
  match check_cold_leads now rows with
  | .error e => .error e
  | .ok cold =>
    .ok { red_alerts := check_high_value_no_followup rows ++ cold,
          orange_alerts := check_grade_distribution rows,
          yellow_alerts := check_unnamed rows ++ check_zombie_leads now rows }

/-! ## Preprocessor (`SalesAnalyzer.preprocess_data`, src/sales_analyzer.py)

A raw DataFrame is modelled column-wise: each expected column is either
present (`some` list of cells, one per row) or missing from the table
(`none`). The date-conversion loop is guarded by
`if col in self.data.columns`, so a missing date column is skipped there;
every later assignment indexes columns directly (`self.data['学员姓名']`,
`...['报名时间'].notna()`, the 跟进天数 subtraction, `...['所属销售']`),
which raises `KeyError` when the column is missing — modelled as
`.error ()`. -/

/-- The raw columns `preprocess_data` touches. -/
structure PreDF where
  firstConsultCol : Option (List Val)
  lastFollowupCol : Option (List Val)
  enrollTimeCol : Option (List Val)
  nameCol : Option (List Val)
  courseCol : Option (List Val)
  amountCol : Option (List Val)
  salesCol : Option (List Val)
deriving DecidableEq

/-- The normalized table: the converted columns plus the three derived
fields 是否报名 / 跟进天数 / 销售部门. -/
structure OutDF where
  firstConsult : List Val
  lastFollowup : List Val
  enrollTime : List Val
  name : List Val
  course : List Val
  amount : List Val
  sales : List Val
  enrolled : List Bool
  follow_up_days : List Val
  department : List Val
deriving DecidableEq

/-- Model of `pd.to_datetime(col, errors='coerce')` on one cell: parse failures
become NaT (never raise); a bare number is an epoch offset. -/
def to_datetime_coerce : Val → Val
  | .date t => .date t
  | .int n => .date (Int.fdiv n 1000000000)
  | .str _ => .na
  | .na => .na

/-- Model of `pd.to_numeric(col, errors='coerce')` on one cell (integral numerals
suffice for the modelled inputs; anything unparseable becomes NaN). -/
def to_numeric_coerce : Val → Val
  | .int n => .int n
  | .str s => match py_int_of_string s with | some n => .int n | none => .na
  | _ => .na

/-- Model of `(最后回访时间 - 首咨时间).dt.days` on one row: whole days (floor),
NaT on either side propagates to NaN. -/
def days_between (l f : Val) : Val :=
  match l, f with
  | .date a, .date b => .int (Int.fdiv (a - b) 86400)
  | _, _ => .na

/-- Model of the 销售部门 extraction on one cell: the
leftmost match's group — the text after the first 创客, up to the first 部
that follows it; no match (or a non-string cell) gives NaN. -/
def extract_department (v : Val) : Val :=
  match v with
  | .str s =>
    match s.splitOn "创客" with
    | [] => .na
    | [_] => .na
    | _ :: r :: rest =>
      match (String.intercalate "创客" (r :: rest)).splitOn "部" with
      | [] => .na
      | [_] => .na
      | g :: _ => .str g
  | _ => .na

/-- Source `SalesAnalyzer.preprocess_data`. The date loop converts the date
columns that exist; the subsequent fill/derive statements require 学员姓名,
报名课程, 报名金额, 报名时间, 最后回访时间, 首咨时间 and 所属销售 to be
present and raise `KeyError` (`.error ()`) otherwise. -/
def preprocess_data (df : PreDF) : Except Unit OutDF :=
  let fc := df.firstConsultCol.map (fun l => l.map to_datetime_coerce)
  let lf := df.lastFollowupCol.map (fun l => l.map to_datetime_coerce)
  let et := df.enrollTimeCol.map (fun l => l.map to_datetime_coerce)
  match df.nameCol, df.courseCol, df.amountCol with
  | some names, some courses, some amounts =>
    match et, lf, fc with
    | some etL, some lfL, some fcL =>
      match df.salesCol with
      | some salesL =>
        .ok { firstConsult := fcL,
              lastFollowup := lfL,
              enrollTime := etL,
              name := names.map (fun v => if pdIsna v then Val.str "未命名" else v),
              course := courses.map (fun v => if pdIsna v then Val.str "未报名" else v),
              amount := amounts.map to_numeric_coerce,
              sales := salesL,
              enrolled := etL.map (fun v => !(pdIsna v)),
              follow_up_days := List.zipWith days_between lfL fcL,
              department := salesL.map extract_department }
      | none => .error ()
    | _, _, _ => .error ()
  | _, _, _ => .error ()

/-! ## Shared lemmas about the scoring tables -/

/-- Every channel contribution lies between the default 20 and the table
maximum 35. -/
lemma channel_scores_range (c : String) :
    20 ≤ channel_scores c ∧ channel_scores c ≤ 35 := by
  unfold channel_scores; split_ifs <;> omega

/-- Every grade contribution lies between the default 5 and A's 30. -/
lemma grade_scores_range (g : String) :
    5 ≤ grade_scores g ∧ grade_scores g ≤ 30 := by
  unfold grade_scores; split_ifs <;> omega

set_option maxHeartbeats 1000000 in
/-- Every follow-up contribution lies between 0 and the 3–5-visit peak 20. -/
lemma followup_scores_range (n : Int) :
    0 ≤ followup_scores n ∧ followup_scores n ≤ 20 := by
  unfold followup_scores; split_ifs <;> omega

/-- Every time-decay contribution lies between 0 and the same-day 10. -/
lemma calculate_time_decay_range (now : Int) (v : Val) :
    0 ≤ calculate_time_decay now v ∧ calculate_time_decay now v ≤ 10 := by
  unfold calculate_time_decay
  cases v <;> simp [pdIsna] <;> split_ifs <;> omega

/-- Characterization of a successful score: the `int()` conversion of the
(NA-defaulted) follow-up cell succeeded, and the result is the clamped sum
of the four contributions. -/
lemma calculate_lead_score_ok_iff (now : Int) (row : Row) (r : Int) :
    calculate_lead_score now row = .ok r ↔
      ∃ f, py_int (if pdIsna (row.followup.getD (.int 0)) then Val.int 0
                   else row.followup.getD (.int 0)) = some f ∧
        r = min (channel_scores (py_str (row.source.getD (.str ""))) +
                 grade_scores (py_str row.grade) +
                 followup_scores (min f 10) +
                 calculate_time_decay now (row.firstConsult.getD (.str ""))) 100 := by
  unfold calculate_lead_score
  cases hpy : py_int (if pdIsna (row.followup.getD (.int 0)) then Val.int 0
                      else row.followup.getD (.int 0)) with
  | none => simp [hpy]
  | some f =>
    simp only [hpy]
    constructor
    · intro h
      exact ⟨f, rfl, by cases h; rfl⟩
    · rintro ⟨f', hf', hr⟩
      cases hf'
      rw [hr]

/-- The four level strings partition the integer line at 90/70/50. -/
lemma get_priority_level_iff (r : Int) :
    (get_priority_level r = "紧急跟进" ↔ 90 ≤ r) ∧
    (get_priority_level r = "优先跟进" ↔ 70 ≤ r ∧ r < 90) ∧
    (get_priority_level r = "常规跟进" ↔ 50 ≤ r ∧ r < 70) ∧
    (get_priority_level r = "低优先级" ↔ r < 50) := by
  unfold get_priority_level
  split_ifs with h1 h2 h3
  · exact ⟨iff_of_true rfl (by omega), iff_of_false (by decide) (by omega),
      iff_of_false (by decide) (by omega), iff_of_false (by decide) (by omega)⟩
  · exact ⟨iff_of_false (by decide) (by omega), iff_of_true rfl (by omega),
      iff_of_false (by decide) (by omega), iff_of_false (by decide) (by omega)⟩
  · exact ⟨iff_of_false (by decide) (by omega), iff_of_false (by decide) (by omega),
      iff_of_true rfl (by omega), iff_of_false (by decide) (by omega)⟩
  · exact ⟨iff_of_false (by decide) (by omega), iff_of_false (by decide) (by omega),
      iff_of_false (by decide) (by omega), iff_of_true rfl (by omega)⟩

/-! ## The claims -/

/-- C1. Every score `calculate_lead_score` returns lies in [0, 100], and
`get_priority_level` maps it to 紧急跟进 ("urgent") iff score ≥ 90, to
优先跟进 ("priority") iff 70 ≤ score < 90, to 常规跟进 ("routine") iff
50 ≤ score < 70, and to 低优先级 ("low") otherwise (iff score < 50). -/
theorem lead_score_range_and_level (now : Int) (row : Row) (r : Int)
    (h : calculate_lead_score now row = .ok r) :
    0 ≤ r ∧ r ≤ 100 ∧
    (get_priority_level r = "紧急跟进" ↔ 90 ≤ r) ∧
    (get_priority_level r = "优先跟进" ↔ 70 ≤ r ∧ r < 90) ∧
    (get_priority_level r = "常规跟进" ↔ 50 ≤ r ∧ r < 70) ∧
    (get_priority_level r = "低优先级" ↔ r < 50) := by
  obtain ⟨f, -, hr⟩ := (calculate_lead_score_ok_iff now row r).1 h
  obtain ⟨l1, l2, l3, l4⟩ := get_priority_level_iff r
  have h1 := channel_scores_range (py_str (row.source.getD (.str "")))
  have h2 := grade_scores_range (py_str row.grade)
  have h3 := followup_scores_range (min f 10)
  have h4 := calculate_time_decay_range now (row.firstConsult.getD (.str ""))
  exact ⟨by omega, by omega, l1, l2, l3, l4⟩

/-- Witness for C1: the all-defaults row scores 25 (∈ [0,100]), a 低优先级
("low") level, and the boundary equivalences hold at 25. -/
theorem lead_score_range_and_level_witness :
    0 ≤ (25 : Int) ∧ (25 : Int) ≤ 100 ∧
    (get_priority_level 25 = "紧急跟进" ↔ 90 ≤ (25 : Int)) ∧
    (get_priority_level 25 = "优先跟进" ↔ 70 ≤ (25 : Int) ∧ (25 : Int) < 90) ∧
    (get_priority_level 25 = "常规跟进" ↔ 50 ≤ (25 : Int) ∧ (25 : Int) < 70) ∧
    (get_priority_level 25 = "低优先级" ↔ (25 : Int) < 50) :=
  lead_score_range_and_level 0
    ⟨none, Val.na, none, Val.na, none, none, none, none, none⟩ 25 rfl

/-- A row with every `row.get` column missing and NaN name/grade cells:
channel default 20 + grade default 5 + follow-up 0 + decay 0 = 25. -/
def default_row : Row := ⟨none, Val.na, none, Val.na, none, none, none, none, none⟩

/-- A row whose follow-up cell is the non-numeric string 三次. -/
def nonnumeric_followup_row : Row := { default_row with followup := some (Val.str "三次") }

/-- A row with three recorded follow-ups. -/
def followup3_row : Row := { default_row with followup := some (Val.int 3) }

/-- C2. Every returned score is the min-100 clamp of four contributions:
the channel table (35/30/25 on the three known channels, 20 on any other
string), the grade table (A..E = 30/25/20/15/10, anything else — 其他
included — 5), the follow-up table looked up after clamping the count to
at most 10 (0 at count 0, peak 20 at counts 3–5, 5 at count 10, never
above 20), and the time decay. -/
theorem lead_score_components (now : Int) (row : Row) (r : Int)
    (h : calculate_lead_score now row = .ok r) :
    (∃ f, py_int (if pdIsna (row.followup.getD (.int 0)) then Val.int 0
                  else row.followup.getD (.int 0)) = some f ∧
       r = min (channel_scores (py_str (row.source.getD (.str ""))) +
                grade_scores (py_str row.grade) +
                followup_scores (min f 10) +
                calculate_time_decay now (row.firstConsult.getD (.str ""))) 100) ∧
    channel_scores "抖音短视频平台" = 35 ∧
    channel_scores "直播平台" = 30 ∧
    channel_scores "创客网络销售" = 25 ∧
    (∀ c, c ∉ (["抖音短视频平台", "直播平台", "创客网络销售"] : List String) →
      channel_scores c = 20) ∧
    grade_scores "A" = 30 ∧ grade_scores "B" = 25 ∧ grade_scores "C" = 20 ∧
    grade_scores "D" = 15 ∧ grade_scores "E" = 10 ∧ grade_scores "其他" = 5 ∧
    (∀ g, g ∉ (["A", "B", "C", "D", "E"] : List String) → grade_scores g = 5) ∧
    followup_scores 0 = 0 ∧ followup_scores 3 = 20 ∧ followup_scores 4 = 20 ∧
    followup_scores 5 = 20 ∧ followup_scores 10 = 5 ∧
    (∀ n : Int, 0 ≤ followup_scores n ∧ followup_scores n ≤ 20) := by
  refine ⟨(calculate_lead_score_ok_iff now row r).1 h,
    rfl, rfl, rfl, ?_, rfl, rfl, rfl, rfl, rfl, rfl, ?_,
    rfl, rfl, rfl, rfl, rfl, followup_scores_range⟩
  · intro c hc
    simp only [List.mem_cons, List.not_mem_nil, or_false, not_or] at hc
    obtain ⟨h1, h2, h3⟩ := hc
    unfold channel_scores
    split_ifs <;> simp_all
  · intro g hg
    simp only [List.mem_cons, List.not_mem_nil, or_false, not_or] at hg
    obtain ⟨h1, h2, h3, h4, h5⟩ := hg
    unfold grade_scores
    split_ifs <;> simp_all

/-- Witness for C2 at the all-defaults row (score 25). -/
theorem lead_score_components_witness :
    (∃ f, py_int (if pdIsna (default_row.followup.getD (.int 0)) then Val.int 0
                  else default_row.followup.getD (.int 0)) = some f ∧
       (25 : Int) = min (channel_scores (py_str (default_row.source.getD (.str ""))) +
                grade_scores (py_str default_row.grade) +
                followup_scores (min f 10) +
                calculate_time_decay 0 (default_row.firstConsult.getD (.str ""))) 100) ∧
    channel_scores "抖音短视频平台" = 35 ∧
    channel_scores "直播平台" = 30 ∧
    channel_scores "创客网络销售" = 25 ∧
    (∀ c, c ∉ (["抖音短视频平台", "直播平台", "创客网络销售"] : List String) →
      channel_scores c = 20) ∧
    grade_scores "A" = 30 ∧ grade_scores "B" = 25 ∧ grade_scores "C" = 20 ∧
    grade_scores "D" = 15 ∧ grade_scores "E" = 10 ∧ grade_scores "其他" = 5 ∧
    (∀ g, g ∉ (["A", "B", "C", "D", "E"] : List String) → grade_scores g = 5) ∧
    followup_scores 0 = 0 ∧ followup_scores 3 = 20 ∧ followup_scores 4 = 20 ∧
    followup_scores 5 = 20 ∧ followup_scores 10 = 5 ∧
    (∀ n : Int, 0 ≤ followup_scores n ∧ followup_scores n ≤ 20) :=
  lead_score_components 0 default_row 25 rfl

/-- C3. Time decay: 10 points at 0 whole elapsed days, 8 at 1–3, 5 at 4–7,
0 at 8 or more; a missing (NaN) or unparseable consultation date
contributes 0 — the function is total, no error is raised. -/
theorem calculate_time_decay_boundaries (now t : Int) :
    (Int.fdiv (now - t) 86400 = 0 → calculate_time_decay now (.date t) = 10) ∧
    (1 ≤ Int.fdiv (now - t) 86400 → Int.fdiv (now - t) 86400 ≤ 3 →
      calculate_time_decay now (.date t) = 8) ∧
    (4 ≤ Int.fdiv (now - t) 86400 → Int.fdiv (now - t) 86400 ≤ 7 →
      calculate_time_decay now (.date t) = 5) ∧
    (8 ≤ Int.fdiv (now - t) 86400 → calculate_time_decay now (.date t) = 0) ∧
    calculate_time_decay now Val.na = 0 ∧
    (∀ s, calculate_time_decay now (.str s) = 0) := by
  have hdate : calculate_time_decay now (.date t) =
      (if Int.fdiv (now - t) 86400 = 0 then 10
       else if Int.fdiv (now - t) 86400 ≤ 3 then 8
       else if Int.fdiv (now - t) 86400 ≤ 7 then 5
       else 0) := rfl
  refine ⟨?_, ?_, ?_, ?_, rfl, fun s => rfl⟩ <;>
    rw [hdate] <;> intros <;> split_ifs <;> omega

/-- Witness for C3: one second before the end of the epoch day is 0 whole
days after it, so the decay is the same-day 10. -/
theorem calculate_time_decay_boundaries_witness :
    calculate_time_decay 86399 (Val.date 0) = 10 :=
  (calculate_time_decay_boundaries 86399 0).1 (by decide)

/-- C4 counterexample. The claim says `calculate_lead_score` never raises
for any value of any field; but on a row whose 回访次数 cell is the
non-numeric string 三次, `int(followup)` raises `ValueError`
(`py_int = none`), modelled as `.error ()`. -/
theorem lead_score_raises_on_nonnumeric_followup :
    calculate_lead_score 0 nonnumeric_followup_row = .error () := rfl

/-- C4 amended. `calculate_lead_score` terminates normally, whatever the
other fields hold (unknown channel or grade, out-of-range count, bad
date), provided the follow-up cell is missing, NaN, an integer, or an
integer-numeral string; only a follow-up value `int()` cannot convert
makes it raise. -/
theorem lead_score_total_on_wellformed_followup (now : Int) (row : Row)
    (h : row.followup = none ∨ row.followup = some Val.na ∨
         (∃ n, row.followup = some (Val.int n)) ∨
         (∃ s, row.followup = some (Val.str s) ∧
           (py_int_of_string s).isSome = true)) :
    ∃ r, calculate_lead_score now row = .ok r := by
  have step : ∀ f, py_int (if pdIsna (row.followup.getD (.int 0)) then Val.int 0
      else row.followup.getD (.int 0)) = some f →
      ∃ r, calculate_lead_score now row = .ok r :=
    fun f hf => ⟨_, (calculate_lead_score_ok_iff now row _).2 ⟨f, hf, rfl⟩⟩
  rcases h with h | h | ⟨n, h⟩ | ⟨s, h, hs⟩
  · exact step 0 (by rw [h]; rfl)
  · exact step 0 (by rw [h]; rfl)
  · exact step n (by rw [h]; rfl)
  · obtain ⟨m, hm⟩ := Option.isSome_iff_exists.mp hs
    exact step m (by rw [h]; simpa [pdIsna, py_int, Option.getD] using hm)

/-- Witness for C4's amended claim at a row with three follow-ups. -/
theorem lead_score_total_on_wellformed_followup_witness :
    ∃ r, calculate_lead_score 0 followup3_row = .ok r :=
  lead_score_total_on_wellformed_followup 0 followup3_row
    (Or.inr (Or.inr (Or.inl ⟨3, rfl⟩)))

/-- C10 (implicit). Every returned score actually lies in [25, 95]: the
channel contribution is at least the default 20 and at most 35, the grade
contribution at least 5 and at most 30, follow-up at most 20 and decay at
most 10; in particular the trailing `min(score, 100)` clamp never changes
the result (the unclamped sum already equals the returned score) and
96–100 are unreachable. -/
theorem lead_score_tight_bounds (now : Int) (row : Row) (r : Int)
    (h : calculate_lead_score now row = .ok r) :
    25 ≤ r ∧ r ≤ 95 ∧
    ∃ f, py_int (if pdIsna (row.followup.getD (.int 0)) then Val.int 0
                 else row.followup.getD (.int 0)) = some f ∧
      r = channel_scores (py_str (row.source.getD (.str ""))) +
          grade_scores (py_str row.grade) +
          followup_scores (min f 10) +
          calculate_time_decay now (row.firstConsult.getD (.str "")) := by
  obtain ⟨f, hf, hr⟩ := (calculate_lead_score_ok_iff now row r).1 h
  have h1 := channel_scores_range (py_str (row.source.getD (.str "")))
  have h2 := grade_scores_range (py_str row.grade)
  have h3 := followup_scores_range (min f 10)
  have h4 := calculate_time_decay_range now (row.firstConsult.getD (.str ""))
  exact ⟨by omega, by omega, f, hf, by omega⟩

/-- Witness for C10 at the all-defaults row: its score 25 is the unclamped
contribution sum. -/
theorem lead_score_tight_bounds_witness :
    25 ≤ (25 : Int) ∧ (25 : Int) ≤ 95 ∧
    ∃ f, py_int (if pdIsna (default_row.followup.getD (.int 0)) then Val.int 0
                 else default_row.followup.getD (.int 0)) = some f ∧
      (25 : Int) = channel_scores (py_str (default_row.source.getD (.str ""))) +
          grade_scores (py_str default_row.grade) +
          followup_scores (min f 10) +
          calculate_time_decay 0 (default_row.firstConsult.getD (.str "")) :=
  lead_score_tight_bounds 0 default_row 25 rfl

/-- A per-record rule looks at each row on its own: the alerts of
`row :: rest` are the alerts of `[row]` followed by those of `rest`. -/
lemma filterMap_cons_append {α β : Type} (f : α → Option β) (a : α) (l : List α) :
    List.filterMap f (a :: l) = List.filterMap f [a] ++ List.filterMap f l := by
  cases h : f a <;> simp [List.filterMap_cons, h]

/-- A row with grade A and no recorded follow-up count. -/
def grade_a_row : Row := { default_row with grade := Val.str "A" }

/-- C6. The high-value rule is per-record (row order preserved), fires
exactly once on a row iff the grade's string form is A, B or C and the
follow-up count is NA/missing or a numeric 0, and in particular fires
exactly once on a grade-A row whose follow-up column is missing. -/
theorem high_value_rule_iff :
    (∀ (row : Row) (rest : List Row),
      check_high_value_no_followup (row :: rest) =
        check_high_value_no_followup [row] ++ check_high_value_no_followup rest) ∧
    (∀ row : Row,
      (check_high_value_no_followup [row]).length = 1 ↔
        (py_str row.grade ∈ (["A", "B", "C"] : List String) ∧
         (pdIsnaOpt row.followup = true ∨
           py_eq_zero (row.followup.getD (.int 0)) = true))) ∧
    (check_high_value_no_followup [grade_a_row]).length = 1 := by
  refine ⟨fun row rest => filterMap_cons_append _ row rest, fun row => ?_, by decide⟩
  by_cases h : (py_str row.grade ∈ (["A", "B", "C"] : List String) ∧
      (pdIsnaOpt row.followup = true ∨
        py_eq_zero (row.followup.getD (.int 0)) = true))
  · simp only [check_high_value_no_followup, List.filterMap_cons, List.filterMap_nil]
    rw [if_pos h]
    simpa using h
  · simp only [check_high_value_no_followup, List.filterMap_cons, List.filterMap_nil]
    rw [if_neg h]
    simpa using h

/-- The table of C7's positive scenario: 4 of 10 rows named 未命名. -/
def table_40pct : List Row :=
  List.replicate 4 { default_row with name := Val.str "未命名" } ++
    List.replicate 6 { default_row with name := Val.str "张三" }

/-- The table of C7's negative scenario: 2 of 10 rows named 未命名. -/
def table_20pct : List Row :=
  List.replicate 2 { default_row with name := Val.str "未命名" } ++
    List.replicate 8 { default_row with name := Val.str "张三" }

/-- C7. On a non-empty table the unnamed-customer rule emits exactly one
alert when the placeholder share strictly exceeds 30% and none otherwise;
on 4-of-10 the single yellow alert reports "40.0%", on 2-of-10 there is no
alert. -/
theorem unnamed_rule :
    (∀ rows : List Row, 0 < rows.length →
      (check_unnamed rows).length =
        if 100 * (rows.filter (fun r => decide (r.name = Val.str "未命名"))).length >
            30 * rows.length then 1 else 0) ∧
    check_unnamed table_40pct =
      [[("类型", Val.str "命名异常"),
        ("级别", Val.str "黄色预警"),
        ("未命名比例", Val.str "40.0%"),
        ("影响分析", Val.str "影响后续精准跟进和客户体验"),
        ("处理建议", Val.str "要求销售在首次沟通时获取真实姓名")]] ∧
    check_unnamed table_20pct = [] := by
  refine ⟨fun rows hpos => ?_, by decide, by decide⟩
  by_cases h : 100 * (rows.filter (fun r => decide (r.name = Val.str "未命名"))).length >
      30 * rows.length
  · simp [check_unnamed, h, hpos]
  · simp [check_unnamed, h]

/-- Witness for C7's quantified part at the 40% table. -/
theorem unnamed_rule_witness :
    (check_unnamed table_40pct).length =
      if 100 * (table_40pct.filter (fun r => decide (r.name = Val.str "未命名"))).length >
          30 * table_40pct.length then 1 else 0 :=
  unnamed_rule.1 table_40pct (by decide)

/-- A record with no enrollment, an NA (missing-value) 最后回访时间 cell,
and a first consultation 10 days in the past. -/
def zombie_na_row : Row :=
  { default_row with lastFollowup := some Val.na,
                     firstConsult := some (Val.date (-864000)) }

/-- A record with no enrollment, the 最后回访时间 column missing from the
table, and a first consultation 10 days in the past. -/
def zombie_fallback_row : Row :=
  { default_row with firstConsult := some (Val.date (-864000)) }

/-- A record with an enrollment timestamp and activity 10 days old. -/
def enrolled_row : Row :=
  { default_row with firstConsult := some (Val.date (-864000)),
                     enrollTime := some (Val.date (-864000)) }

/-- C5 counterexample. The claim says the zombie rule falls back to the
first-consultation timestamp when the follow-up timestamp is absent, so a
record with no enrollment, an absent (NaN) follow-up and a consultation 10
days ago should yield one alert. It yields none: the Python expression
`row.get('最后回访时间', '') or row.get('首咨时间', '')` keeps NaN (NaN is
truthy, so no fallback happens), and `pd.isna` then skips the record. -/
theorem zombie_na_followup_skipped :
    check_zombie_leads 0 [zombie_na_row] = [] := rfl

/-- C5 amended. The rule is per-record; the activity value is the
follow-up cell itself whenever that cell is truthy (NaN included — an NA
follow-up is kept, found to be NA, and the record is skipped without an
alert), and the first-consultation cell only when the follow-up cell is
missing from the table or falsy (e.g. the empty string). A record fires
exactly once iff the chosen value is non-NA, parses to a date strictly
before now − 7 days, and the enrollment cell is NA or missing; a record
with an enrollment timestamp present fires never; with the follow-up
column missing and consultation 10 days old it fires exactly once. -/
theorem zombie_rule_amended :
    (∀ (now : Int) (row : Row) (rest : List Row),
      check_zombie_leads now (row :: rest) =
        check_zombie_leads now [row] ++ check_zombie_leads now rest) ∧
    (∀ (now : Int) (row : Row),
      (check_zombie_leads now [row]).length = 1 ↔
        (pdIsna (if truthy (row.lastFollowup.getD (.str "")) then
                   row.lastFollowup.getD (.str "")
                 else row.firstConsult.getD (.str "")) = false ∧
         ∃ t, to_datetime (if truthy (row.lastFollowup.getD (.str "")) then
                             row.lastFollowup.getD (.str "")
                           else row.firstConsult.getD (.str "")) = some t ∧
           t < now - 7 * 86400 ∧ pdIsnaOpt row.enrollTime = true)) ∧
    (∀ (now : Int) (row : Row) (v : Val), row.enrollTime = some v →
      pdIsna v = false → check_zombie_leads now [row] = []) ∧
    (check_zombie_leads 0 [zombie_fallback_row]).length = 1 := by
  refine ⟨fun now row rest => filterMap_cons_append _ row rest,
    fun now row => ?_, fun now row v hv hna => ?_, by decide⟩
  · simp only [check_zombie_leads, List.filterMap_cons, List.filterMap_nil]
    by_cases h1 : pdIsna (if truthy (row.lastFollowup.getD (.str "")) then
        row.lastFollowup.getD (.str "") else row.firstConsult.getD (.str "")) = true
    · simp [h1]
    · rw [Bool.not_eq_true] at h1
      cases h2 : to_datetime (if truthy (row.lastFollowup.getD (.str "")) then
          row.lastFollowup.getD (.str "") else row.firstConsult.getD (.str "")) with
      | none => simp [h1, h2]
      | some t =>
        by_cases h3 : t < now - 7 * 86400 ∧ pdIsnaOpt row.enrollTime = true
        · simp only [h1, Bool.false_eq_true, if_false, h2]
          rw [if_pos h3]
          exact iff_of_true (by simp) ⟨by simp [h1], t, rfl, h3.1, h3.2⟩
        · simp only [h1, Bool.false_eq_true, if_false, h2]
          rw [if_neg h3]
          refine iff_of_false (by simp) ?_
          rintro ⟨-, t', ht', hlt, hna⟩
          cases ht'
          exact absurd ⟨hlt, hna⟩ h3
  · simp only [check_zombie_leads, List.filterMap_cons, List.filterMap_nil]
    by_cases h1 : pdIsna (if truthy (row.lastFollowup.getD (.str "")) then
        row.lastFollowup.getD (.str "") else row.firstConsult.getD (.str "")) = true
    · simp [h1]
    · rw [Bool.not_eq_true] at h1
      cases h2 : to_datetime (if truthy (row.lastFollowup.getD (.str "")) then
          row.lastFollowup.getD (.str "") else row.firstConsult.getD (.str "")) with
      | none => simp [h1, h2]
      | some t =>
        have h3 : ¬(t < now - 7 * 86400 ∧ pdIsnaOpt row.enrollTime = true) := by
          rintro ⟨-, hopt⟩
          rw [hv] at hopt
          simp only [pdIsnaOpt] at hopt
          rw [hna] at hopt
          exact Bool.false_ne_true hopt
        simp only [h1, Bool.false_eq_true, if_false, h2]
        rw [if_neg h3]

/-- Witness for C5's amended claim: an enrolled record triggers no zombie
alert. -/
theorem zombie_rule_amended_witness :
    check_zombie_leads 0 [enrolled_row] = [] :=
  zombie_rule_amended.2.2.1 0 enrolled_row (Val.date (-864000)) rfl rfl

/-- C8. `generate_all_alerts` clears the three buckets before running the
rules: the result never depends on the incoming bucket state, and a second
run on the same table at the same time reproduces the first run's buckets
exactly. -/
theorem generate_all_alerts_state_independent :
    (∀ (sys1 sys2 : AlertSystem) (now : Int) (rows : List Row),
      generate_all_alerts sys1 now rows = generate_all_alerts sys2 now rows) ∧
    (∀ (sys b : AlertSystem) (now : Int) (rows : List Row),
      generate_all_alerts sys now rows = .ok b →
      generate_all_alerts b now rows = .ok b) :=
  ⟨fun _ _ _ _ => rfl, fun _ _ _ _ h => h⟩

/-- Witness for C8: rerunning on the empty table from the buckets the
first run produced returns those same (empty) buckets. -/
theorem generate_all_alerts_state_independent_witness :
    generate_all_alerts ⟨[], [], []⟩ 0 [] = .ok ⟨[], [], []⟩ :=
  generate_all_alerts_state_independent.2 ⟨[], [], []⟩ ⟨[], [], []⟩ 0 [] rfl

/-- Coercing `to_datetime_coerce` only produces dates or NaT. -/
lemma to_datetime_coerce_shape (v : Val) :
    (∃ t, to_datetime_coerce v = Val.date t) ∨ to_datetime_coerce v = Val.na := by
  cases v <;> simp [to_datetime_coerce]

/-- Filling via `fillna` with a string placeholder leaves no NA cell behind. -/
lemma fillna_ne_na (p : String) (v : Val) :
    (if pdIsna v then Val.str p else v) ≠ Val.na := by
  cases v <;> simp [pdIsna]

/-- A one-row raw table whose 学员姓名 column is missing. -/
def df_missing_name : PreDF :=
  { firstConsultCol := some [Val.na], lastFollowupCol := some [Val.na],
    enrollTimeCol := some [Val.na], nameCol := none, courseCol := some [Val.na],
    amountCol := some [Val.na], salesCol := some [Val.na] }

/-- A one-row raw table with every expected column present. -/
def df_complete : PreDF :=
  { firstConsultCol := some [Val.date 0], lastFollowupCol := some [Val.str "乱码"],
    enrollTimeCol := some [Val.na], nameCol := some [Val.na],
    courseCol := some [Val.na], amountCol := some [Val.str "1999"],
    salesCol := some [Val.str "创客一部-张三"] }

/-- C9 counterexample. The claim says the Preprocessor creates a fallback
value for any expected column missing from the input rather than failing;
but `self.data['学员姓名'].fillna(...)` raises `KeyError` when the
学员姓名 column is absent (only the date-conversion loop checks column
presence, and it creates nothing). -/
theorem preprocess_missing_column_raises :
    preprocess_data df_missing_name = .error () := rfl

/-- C9 amended. `preprocess_data` does not create missing expected
columns — any of 学员姓名 / 报名课程 / 报名金额 / 报名时间 / 最后回访时间 /
首咨时间 / 所属销售 absent makes it raise — but when all of them are
present it succeeds, parsing each date cell to a date-time or marking it
absent (never throwing on a bad date), replacing null name/course cells by
the fixed placeholders, and populating the three derived per-row fields
是否报名 / 跟进天数 / 销售部门. -/
theorem preprocess_normalizes_when_columns_present (df : PreDF)
    (nm cr am et lf fc sl : List Val)
    (h1 : df.nameCol = some nm) (h2 : df.courseCol = some cr)
    (h3 : df.amountCol = some am) (h4 : df.enrollTimeCol = some et)
    (h5 : df.lastFollowupCol = some lf) (h6 : df.firstConsultCol = some fc)
    (h7 : df.salesCol = some sl) :
    ∃ out, preprocess_data df = .ok out ∧
      (∀ v ∈ out.firstConsult, (∃ t, v = Val.date t) ∨ v = Val.na) ∧
      (∀ v ∈ out.lastFollowup, (∃ t, v = Val.date t) ∨ v = Val.na) ∧
      (∀ v ∈ out.enrollTime, (∃ t, v = Val.date t) ∨ v = Val.na) ∧
      (∀ v ∈ out.name, v ≠ Val.na) ∧
      (∀ v ∈ out.course, v ≠ Val.na) ∧
      out.enrolled.length = et.length ∧
      out.follow_up_days.length = min lf.length fc.length ∧
      out.department.length = sl.length := by
  refine ⟨_, by unfold preprocess_data; rw [h1, h2, h3, h4, h5, h6, h7]; rfl,
    ?_, ?_, ?_, ?_, ?_, by simp, by simp [List.length_zipWith], by simp⟩
  · intro v hv
    obtain ⟨w, -, rfl⟩ := List.mem_map.mp hv
    exact to_datetime_coerce_shape w
  · intro v hv
    obtain ⟨w, -, rfl⟩ := List.mem_map.mp hv
    exact to_datetime_coerce_shape w
  · intro v hv
    obtain ⟨w, -, rfl⟩ := List.mem_map.mp hv
    exact to_datetime_coerce_shape w
  · intro v hv
    obtain ⟨w, -, rfl⟩ := List.mem_map.mp hv
    exact fillna_ne_na _ w
  · intro v hv
    obtain ⟨w, -, rfl⟩ := List.mem_map.mp hv
    exact fillna_ne_na _ w

/-- Witness for C9's amended claim at a complete one-row table. -/
theorem preprocess_normalizes_when_columns_present_witness :
    ∃ out, preprocess_data df_complete = .ok out ∧
      (∀ v ∈ out.firstConsult, (∃ t, v = Val.date t) ∨ v = Val.na) ∧
      (∀ v ∈ out.lastFollowup, (∃ t, v = Val.date t) ∨ v = Val.na) ∧
      (∀ v ∈ out.enrollTime, (∃ t, v = Val.date t) ∨ v = Val.na) ∧
      (∀ v ∈ out.name, v ≠ Val.na) ∧
      (∀ v ∈ out.course, v ≠ Val.na) ∧
      out.enrolled.length = [Val.na].length ∧
      out.follow_up_days.length = min [Val.str "乱码"].length [Val.date 0].length ∧
      out.department.length = [Val.str "创客一部-张三"].length :=
  preprocess_normalizes_when_columns_present df_complete
    [Val.na] [Val.na] [Val.str "1999"] [Val.na] [Val.str "乱码"] [Val.date 0]
    [Val.str "创客一部-张三"] rfl rfl rfl rfl rfl rfl rfl

end SalesLeads
